import Mathlib

/-!
Shallow embedding of the Idealizador microservice (`src/main.py`): a FastAPI +
sqlite3 + bcrypt CRUD backend over two tables, `idealizadores` (users) and
`habilidades` (skill tags).  The store is modelled as an explicit state value
threaded through each request handler; every handler returns its HTTP-level
result (success payload or the `HTTPException` it raises), the committed
database state after the request, and whether `conexao.close()` was executed
on the exit path taken (the source opens a fresh sqlite connection per
request).  Exogenous storage failures that the source catches or lets escape
(the `except` branch of `excluir_perfil`, a failing `INSERT` in
`salvar_habilidades`) are modelled by an explicit fault parameter.
-/

/-- Modelled from the spec: the bcrypt library (`bcrypt.hashpw` /
`bcrypt.gensalt` / `bcrypt.checkpw`) is an external dependency whose code is
not under `src/`.  Per spec 4.2 the hash is a salted one-way digest with the
salt embedded in the output, and verification recomputes the digest from the
plaintext and the embedded salt and compares.  The digest is modelled as the
(salt, plaintext) recomputation pair; this keeps exactly the contract the
spec states (verify recomputes and compares) while staying executable. -/
structure HashBytes where
  salt : Nat
  digest : Nat × String
deriving DecidableEq, Repr

/-- `bcrypt.hashpw(senha, bcrypt.gensalt())`; the freshly generated salt is an
explicit parameter. -/
def hashpw (senha : String) (salt : Nat) : HashBytes :=
  ⟨salt, (salt, senha)⟩

/-- `bcrypt.checkpw(senha, hash)`: recompute the digest with the embedded salt
and compare. -/
def checkpw (senha : String) (hash : HashBytes) : Bool :=
  (hash.salt, senha) == hash.digest

/-- One row of the `idealizadores` table (schema from spec section 3; the DDL
in `database.py` is not under `src/`).  `nome`, `email` and `senha` are
required, the remaining text columns are nullable. -/
structure Usuario where
  id : Nat
  nome : String
  telefone : Option String
  email : String
  senha : HashBytes
  github : Option String
  linkedin : Option String
  funcao : Option String
  pais : Option String
  cidade : Option String
  sobre_mim : Option String
deriving DecidableEq, Repr

/-- One row of the `habilidades` table. -/
structure Habilidade where
  id : Nat
  idealizador_id : Nat
  nome : String
deriving DecidableEq, Repr

/-- The sqlite store `banco.db`: both tables in insertion (rowid) order plus
the next auto-assigned primary key for each. -/
structure DB where
  usuarios : List Usuario
  habilidades : List Habilidade
  proxUsuarioId : Nat
  proxHabilidadeId : Nat
deriving DecidableEq, Repr

/-- An `HTTPException` as raised by the handlers: status code plus detail. -/
structure Err where
  status : Nat
  detail : String
deriving DecidableEq, Repr

/-- Outcome of one request handler: the HTTP result (payload or raised
exception), the committed database state afterwards, and whether
`conexao.close()` ran on the exit path taken. -/
structure HandlerOut (α : Type) where
  result : Except Err α
  db : DB
  connClosed : Bool
deriving Repr

/-- Request body of `POST /cadastro` (pydantic model `Idealizador`; the model
file is not under `src/`, field list from spec 4.3). -/
structure Idealizador where
  nome : String
  telefone : Option String
  email : String
  senha : String
  github : Option String
  linkedin : Option String
  funcao : Option String
  pais : Option String
  cidade : Option String
  sobre_mim : Option String
deriving DecidableEq, Repr

/-- Modelled from the spec: the `UNIQUE` constraint on
`idealizadores.email` lives in the DDL of `database.py`, which is not under
`src/`; spec section 3 states `email` is unique across all users.  The
`INSERT` in `cadastrar` raises `sqlite3.IntegrityError` exactly when a row
with the same email already exists. -/
def emailJaCadastrado (email : String) (db : DB) : Bool :=
  db.usuarios.any (fun u => u.email == email)

/-- `POST /cadastro` (`cadastrar`, src/main.py:36-65).  Hashes the password,
inserts the row; `sqlite3.IntegrityError` (duplicate email) is caught and
mapped to `HTTPException(400, "E-mail já cadastrado.")` with no state change;
the `finally` block closes the connection on both paths. -/
def cadastrar (idealizador : Idealizador) (salt : Nat) (db : DB) : HandlerOut String :=
  let senha_criptografada := hashpw idealizador.senha salt
  if emailJaCadastrado idealizador.email db then
    ⟨.error ⟨400, "E-mail já cadastrado."⟩, db, true⟩
  else
    ⟨.ok "Idealizador cadastrado com sucesso!",
     { db with
       usuarios := db.usuarios ++
         [⟨db.proxUsuarioId, idealizador.nome, idealizador.telefone, idealizador.email,
           senha_criptografada, idealizador.github, idealizador.linkedin, idealizador.funcao,
           idealizador.pais, idealizador.cidade, idealizador.sobre_mim⟩],
       proxUsuarioId := db.proxUsuarioId + 1 },
     true⟩

/-- Request body of `POST /login` (src/main.py:71-73). -/
structure Login where
  email : String
  senha : String
deriving DecidableEq, Repr

/-- Success payload of `POST /login`: message plus user id. -/
structure LoginOk where
  mensagem : String
  id : Nat
deriving DecidableEq, Repr

/-- `POST /login` (`login`, src/main.py:75-90).  `fetchone` on the
email-filtered `SELECT` yields the first matching row; the connection is
closed before any branch, so every exit path has it closed. -/
def login (credenciais : Login) (db : DB) : HandlerOut LoginOk :=
  match db.usuarios.find? (fun u => u.email == credenciais.email) with
  | none => ⟨.error ⟨404, "Usuário não encontrado"⟩, db, true⟩
  | some u =>
    if checkpw credenciais.senha u.senha then
      ⟨.ok ⟨"Bem-vindo " ++ u.nome ++ "!", u.id⟩, db, true⟩
    else
      ⟨.error ⟨401, "Senha incorreta"⟩, db, true⟩

/-- `SELECT nome FROM habilidades WHERE idealizador_id = ?` over a row list,
in rowid (insertion) order. -/
def skillNames (idealizador_id : Nat) (linhas : List Habilidade) : List String :=
  (linhas.filter (fun h => h.idealizador_id == idealizador_id)).map (fun h => h.nome)

/-- The skill names currently stored for a given user id, in insertion
order. -/
def skillsOf (idealizador_id : Nat) (db : DB) : List String :=
  skillNames idealizador_id db.habilidades

/-- Response of `GET /perfil/{id}`: every user column except the password
hash (`senha` is not selected by the query, src/main.py:102-105), plus the
skill-name list.  There is no `senha` field in this payload at all. -/
structure Perfil where
  id : Nat
  nome : String
  telefone : String
  email : String
  github : String
  linkedin : String
  funcao : String
  pais : String
  cidade : String
  sobre_mim : String
  habilidades : List String
deriving DecidableEq, Repr

/-- `GET /perfil/{id}` (`obter_perfil`, src/main.py:97-131).  Missing row
maps to 404; otherwise each nullable column is projected through Python's
`x or ""` (i.e. `Option.getD ""`; on the non-null `nome` and `email` columns
`x or ""` is the identity), and the skill names for the id are attached.
Both exits close the connection. -/
def obter_perfil (idealizador_id : Nat) (db : DB) : HandlerOut Perfil :=
  match db.usuarios.find? (fun u => u.id == idealizador_id) with
  | none => ⟨.error ⟨404, "Perfil não encontrado"⟩, db, true⟩
  | some u =>
    ⟨.ok ⟨u.id, u.nome, u.telefone.getD "", u.email, u.github.getD "", u.linkedin.getD "",
          u.funcao.getD "", u.pais.getD "", u.cidade.getD "", u.sobre_mim.getD "",
          skillsOf idealizador_id db⟩,
     db, true⟩

/-- Request body of `PUT /perfil/{id}` (`AtualizacaoPerfil`,
src/main.py:134-143): every field optional, `None` meaning absent. -/
structure AtualizacaoPerfil where
  nome : Option String
  telefone : Option String
  github : Option String
  linkedin : Option String
  funcao : Option String
  pais : Option String
  cidade : Option String
  sobre_mim : Option String
  email : Option String
deriving DecidableEq, Repr

/-- The updatable columns, in the iteration order of `dados.dict()` (pydantic
preserves declaration order, src/main.py:134-143). -/
inductive Campo
  | nome | telefone | github | linkedin | funcao | pais | cidade | sobre_mim | email
deriving DecidableEq, Repr

/-- Apply one `campo = ?` assignment of the dynamically built `UPDATE` to a
row. -/
def setCampo (u : Usuario) (c : Campo) (v : String) : Usuario :=
  match c with
  | .nome => { u with nome := v }
  | .telefone => { u with telefone := some v }
  | .github => { u with github := some v }
  | .linkedin => { u with linkedin := some v }
  | .funcao => { u with funcao := some v }
  | .pais => { u with pais := some v }
  | .cidade => { u with cidade := some v }
  | .sobre_mim => { u with sobre_mim := some v }
  | .email => { u with email := v }

/-- Contribution of one field to the `campos`/`valores` lists: present fields
produce one assignment, absent fields none (src/main.py:155-158). -/
def optCampo (c : Campo) (v : Option String) : List (Campo × String) :=
  match v with
  | some s => [(c, s)]
  | none => []

/-- The assignment list built by the loop over `dados.dict().items()`, in
field-declaration order. -/
def camposPresentes (dados : AtualizacaoPerfil) : List (Campo × String) :=
  optCampo .nome dados.nome ++ optCampo .telefone dados.telefone ++
  optCampo .github dados.github ++ optCampo .linkedin dados.linkedin ++
  optCampo .funcao dados.funcao ++ optCampo .pais dados.pais ++
  optCampo .cidade dados.cidade ++ optCampo .sobre_mim dados.sobre_mim ++
  optCampo .email dados.email

/-- Execute the built `UPDATE ... SET c1 = ?, ..., cn = ?` on one row: the
assignments are applied left to right. -/
def aplicarUpdate (assigns : List (Campo × String)) (u : Usuario) : Usuario :=
  assigns.foldl (fun u cv => setCampo u cv.1 cv.2) u

/-- `PUT /perfil/{id}` (`atualizar_perfil`, src/main.py:146-169).  With no
present field the handler raises `HTTPException(400, ...)` directly — note
that this exit path never reaches `conexao.close()` (src/main.py:160-161
raise before line 167), so the connection is left open.  Otherwise the single
`UPDATE ... WHERE id = ?` is executed and committed and the connection
closed. -/
def atualizar_perfil (idealizador_id : Nat) (dados : AtualizacaoPerfil) (db : DB) :
    HandlerOut String :=
  let campos := camposPresentes dados
  if campos.isEmpty then
    ⟨.error ⟨400, "Nenhum dado enviado para atualizar."⟩, db, false⟩
  else
    ⟨.ok "Perfil atualizado com sucesso!",
     { db with
       usuarios := db.usuarios.map (fun u =>
         if u.id == idealizador_id then aplicarUpdate campos u else u) },
     true⟩

/-- `GET /habilidades/{id}` (`listar_habilidades`, src/main.py:175-182):
always succeeds, empty list when the id has no rows. -/
def listar_habilidades (idealizador_id : Nat) (db : DB) : HandlerOut (List String) :=
  ⟨.ok (skillsOf idealizador_id db), db, true⟩

/-- The insertion loop of `salvar_habilidades` (src/main.py:194-195): one
`INSERT` per name, in list order, each consuming a fresh rowid. -/
def inserirHabilidades (idealizador_id : Nat) (nomes : List String) (db : DB) : DB :=
  match nomes with
  | [] => db
  | nome :: resto =>
    inserirHabilidades idealizador_id resto
      { db with
        habilidades := db.habilidades ++ [⟨db.proxHabilidadeId, idealizador_id, nome⟩],
        proxHabilidadeId := db.proxHabilidadeId + 1 }

/-- `POST /habilidades/{id}` (`salvar_habilidades`, src/main.py:185-200).
`falha` injects an exogenous sqlite exception from one of the `INSERT`s
(carrying its message): the handler has no try/except, so the exception
escapes as a generic 500 before `conexao.commit()` — the uncommitted
delete/inserts are discarded when the leaked connection is collected, so the
committed state is unchanged — and `conexao.close()` (src/main.py:198) is
never reached.  With no fault: delete all rows for the id, insert one row per
name in order, commit, close. -/
def salvar_habilidades (idealizador_id : Nat) (habilidades : List String)
    (falha : Option String) (db : DB) : HandlerOut String :=
  match falha with
  | some _ => ⟨.error ⟨500, "Internal Server Error"⟩, db, false⟩
  | none =>
    let aposDelete :=
      { db with habilidades :=
          db.habilidades.filter (fun h => h.idealizador_id != idealizador_id) }
    ⟨.ok "Habilidades atualizadas com sucesso!",
     inserirHabilidades idealizador_id habilidades aposDelete, true⟩

/-- `DELETE /perfil/{id}` (`excluir_perfil`, src/main.py:205-230).  Absent id
maps to 404 with the connection closed explicitly.  `falha` injects an
exogenous exception from either `DELETE` (carrying its message): the `except`
branch rolls the uncommitted work back — state unchanged — and raises
`HTTPException(500, "Erro ao excluir perfil: " + e)`; the `finally` block
closes the connection on every path.  With no fault: skill rows for the id
are deleted first, then the user row, then commit. -/
def excluir_perfil (idealizador_id : Nat) (falha : Option String) (db : DB) :
    HandlerOut String :=
  match db.usuarios.find? (fun u => u.id == idealizador_id) with
  | none => ⟨.error ⟨404, "Usuário não encontrado."⟩, db, true⟩
  | some _ =>
    match falha with
    | some e => ⟨.error ⟨500, "Erro ao excluir perfil: " ++ e⟩, db, true⟩
    | none =>
      ⟨.ok "Perfil e habilidades excluídos com sucesso!",
       { db with
         habilidades :=
           db.habilidades.filter (fun h => h.idealizador_id != idealizador_id),
         usuarios := db.usuarios.filter (fun u => u.id != idealizador_id) },
       true⟩

/-- Spec-side description of one updated optional field: a present input
value overwrites, an absent one keeps the prior value. -/
def updOpt (novo : Option String) (antigo : Option String) : Option String :=
  match novo with
  | some v => some v
  | none => antigo

/-- Spec-side description of one updated required (non-null) field. -/
def updStr (novo : Option String) (antigo : String) : String :=
  match novo with
  | some v => v
  | none => antigo

/-- Sample user for concrete witnesses. -/
def u0 : Usuario :=
  ⟨1, "Ana", some "5599", "a@x.com", hashpw "pw1" 3, none, none, some "dev",
   some "BR", some "POA", none⟩

/-- Sample store: one user (id 1) owning skills `["a", "b"]`. -/
def db0 : DB :=
  ⟨[u0], [⟨1, 1, "a"⟩, ⟨2, 1, "b"⟩], 2, 3⟩

/-! Helper lemmas about the two tables. -/

/-- After `DELETE FROM habilidades WHERE idealizador_id = ?`, no skill name
remains for that id. -/
theorem skillNames_filter_out (i : Nat) (l : List Habilidade) :
    skillNames i (l.filter (fun h => h.idealizador_id != i)) = [] := by
  simp [skillNames, List.filter_filter, bne]

/-- After `DELETE FROM idealizadores WHERE id = ?`, a lookup by that id finds
nothing. -/
theorem find?_usuarios_filter_out (i : Nat) (l : List Usuario) :
    (l.filter (fun u => u.id != i)).find? (fun u => u.id == i) = none := by
  simp only [List.find?_eq_none, List.mem_filter]
  rintro x ⟨_, hx⟩
  simpa [bne] using hx

/-- The insertion loop touches only the `habilidades` table. -/
theorem inserirHabilidades_usuarios (i : Nat) (nomes : List String) (db : DB) :
    (inserirHabilidades i nomes db).usuarios = db.usuarios := by
  induction nomes generalizing db with
  | nil => rfl
  | cons n resto ih => rw [inserirHabilidades]; exact ih _

/-- The insertion loop appends exactly the inserted names, in order, to the
id's skill listing. -/
theorem skillsOf_inserirHabilidades (i : Nat) (nomes : List String) (db : DB) :
    skillsOf i (inserirHabilidades i nomes db) = skillsOf i db ++ nomes := by
  induction nomes generalizing db with
  | nil => simp [inserirHabilidades]
  | cons n resto ih =>
    rw [inserirHabilidades, ih]
    simp [skillsOf, skillNames, List.filter_append]

/-- C1: for every plaintext `p` and fresh salt, the bcrypt check done at
login (src/main.py:87) accepts `p` against the hash stored at registration
(src/main.py:41), and rejects every plaintext `p2 ≠ p`. -/
theorem checkpw_hashpw_correct (p p2 : String) (salt : Nat) (h : p2 ≠ p) :
    checkpw p (hashpw p salt) = true ∧ checkpw p2 (hashpw p salt) = false := by
  refine ⟨by simp [checkpw, hashpw], ?_⟩
  have hne : ((salt, p2) : Nat × String) ≠ (salt, p) := by simp [h]
  simp [checkpw, hashpw, hne]

/-- C1 witness: the registered password verifies, a different one does not. -/
theorem checkpw_hashpw_correct_witness :
    checkpw "pw1" (hashpw "pw1" 3) = true ∧ checkpw "wrong" (hashpw "pw1" 3) = false :=
  checkpw_hashpw_correct "pw1" "wrong" 3 (by decide)

/-- C2: registering with an email some stored user already has yields the
dedicated duplicate-email error (`HTTPException(400, "E-mail já
cadastrado.")`, the mapped `sqlite3.IntegrityError`, src/main.py:60-61), the
store is left exactly as it was (no partial insertion, existing rows
untouched), and the connection is closed by the `finally` block. -/
theorem cadastrar_email_duplicado (idealizador : Idealizador) (salt : Nat) (db : DB)
    (h : ∃ u ∈ db.usuarios, u.email = idealizador.email) :
    cadastrar idealizador salt db = ⟨.error ⟨400, "E-mail já cadastrado."⟩, db, true⟩ := by
  have hdup : emailJaCadastrado idealizador.email db = true := by
    rcases h with ⟨u, hu, he⟩
    simp only [emailJaCadastrado, List.any_eq_true]
    exact ⟨u, hu, by simp [he]⟩
  simp [cadastrar, hdup]

/-- C2 witness: a second registration with `u0`'s email conflicts and leaves
`db0` unchanged. -/
theorem cadastrar_email_duplicado_witness :
    cadastrar ⟨"Bia", none, "a@x.com", "pw2", none, none, none, none, none, none⟩ 7 db0
      = ⟨.error ⟨400, "E-mail já cadastrado."⟩, db0, true⟩ :=
  cadastrar_email_duplicado _ 7 db0 ⟨u0, by simp [db0], by simp [u0]⟩

/-- C3: profile delete returns 404 and leaves the store unchanged when the id
has no row; on an exogenous failure of either `DELETE` the transaction is
rolled back (state exactly as before) and a 500 carrying the underlying
cause is raised; on success the skill rows for the id are deleted, then the
user row, and afterwards the skill listing is empty and the profile fetch is
404. -/
theorem excluir_perfil_spec (db : DB) (idealizador_id : Nat) :
    (db.usuarios.find? (fun u => u.id == idealizador_id) = none →
      excluir_perfil idealizador_id none db
        = ⟨.error ⟨404, "Usuário não encontrado."⟩, db, true⟩)
  ∧ (∀ e : String, ∀ u, db.usuarios.find? (fun u => u.id == idealizador_id) = some u →
      excluir_perfil idealizador_id (some e) db
        = ⟨.error ⟨500, "Erro ao excluir perfil: " ++ e⟩, db, true⟩)
  ∧ (∀ u, db.usuarios.find? (fun u => u.id == idealizador_id) = some u →
      excluir_perfil idealizador_id none db
        = ⟨.ok "Perfil e habilidades excluídos com sucesso!",
           { db with
             habilidades :=
               db.habilidades.filter (fun h => h.idealizador_id != idealizador_id),
             usuarios := db.usuarios.filter (fun u => u.id != idealizador_id) },
           true⟩
      ∧ (listar_habilidades idealizador_id (excluir_perfil idealizador_id none db).db).result
          = .ok []
      ∧ (obter_perfil idealizador_id (excluir_perfil idealizador_id none db).db).result
          = .error ⟨404, "Perfil não encontrado"⟩) := by
  refine ⟨fun hnone => ?_, fun e u hu => ?_, fun u hu => ?_⟩
  · simp [excluir_perfil, hnone]
  · simp [excluir_perfil, hu]
  · have hdel : excluir_perfil idealizador_id none db
        = ⟨.ok "Perfil e habilidades excluídos com sucesso!",
           { db with
             habilidades :=
               db.habilidades.filter (fun h => h.idealizador_id != idealizador_id),
             usuarios := db.usuarios.filter (fun u => u.id != idealizador_id) },
           true⟩ := by
      simp [excluir_perfil, hu]
    refine ⟨hdel, ?_, ?_⟩
    · rw [hdel]
      simp [listar_habilidades, skillsOf, skillNames_filter_out]
    · rw [hdel]
      simp only [obter_perfil, find?_usuarios_filter_out]

/-- C3 witness: on `db0` (user 1 owns skills `["a", "b"]`): deleting id 2 is
404; a failing delete on id 1 rolls back with a 500 carrying the cause; after
a successful delete of id 1 the skill listing is empty and the profile fetch
is 404. -/
theorem excluir_perfil_spec_witness :
    excluir_perfil 2 none db0 = ⟨.error ⟨404, "Usuário não encontrado."⟩, db0, true⟩
  ∧ excluir_perfil 1 (some "disk I/O error") db0
      = ⟨.error ⟨500, "Erro ao excluir perfil: " ++ "disk I/O error"⟩, db0, true⟩
  ∧ (listar_habilidades 1 (excluir_perfil 1 none db0).db).result = .ok []
  ∧ (obter_perfil 1 (excluir_perfil 1 none db0).db).result
      = .error ⟨404, "Perfil não encontrado"⟩ :=
  ⟨(excluir_perfil_spec db0 2).1 (by decide),
   (excluir_perfil_spec db0 1).2.1 "disk I/O error" u0 (by decide),
   ((excluir_perfil_spec db0 1).2.2 u0 (by decide)).2.1,
   ((excluir_perfil_spec db0 1).2.2 u0 (by decide)).2.2⟩

/-- C4: skill replace (no fault) succeeds with the confirmation message and a
subsequent listing for the id returns exactly the input list — one row per
entry, in input order, duplicates preserved, nothing surviving from the
previous set. -/
theorem salvar_habilidades_replace (db : DB) (idealizador_id : Nat) (nomes : List String) :
    (salvar_habilidades idealizador_id nomes none db).result
        = .ok "Habilidades atualizadas com sucesso!"
  ∧ (listar_habilidades idealizador_id
        (salvar_habilidades idealizador_id nomes none db).db).result = .ok nomes := by
  refine ⟨rfl, ?_⟩
  simp only [listar_habilidades, salvar_habilidades]
  rw [skillsOf_inserirHabilidades]
  simp [skillsOf, skillNames_filter_out]

/-- C5: login maps an unknown email to 404, a known email with a
non-verifying password to 401 (a plain error, nothing thrown), and a
verifying password to success carrying the found row's id and display
name; the store is never modified. -/
theorem login_spec (db : DB) (credenciais : Login) :
    (db.usuarios.find? (fun u => u.email == credenciais.email) = none →
      login credenciais db = ⟨.error ⟨404, "Usuário não encontrado"⟩, db, true⟩)
  ∧ (∀ u, db.usuarios.find? (fun u => u.email == credenciais.email) = some u →
      checkpw credenciais.senha u.senha = false →
      login credenciais db = ⟨.error ⟨401, "Senha incorreta"⟩, db, true⟩)
  ∧ (∀ u, db.usuarios.find? (fun u => u.email == credenciais.email) = some u →
      checkpw credenciais.senha u.senha = true →
      login credenciais db = ⟨.ok ⟨"Bem-vindo " ++ u.nome ++ "!", u.id⟩, db, true⟩) := by
  refine ⟨fun h => ?_, fun u hu hc => ?_, fun u hu hc => ?_⟩ <;> simp [login, *]

/-- C5 witness: on `db0`, an unknown email is 404, `u0`'s email with a wrong
password is 401, and with the registered password login succeeds with id 1
and the greeting naming Ana. -/
theorem login_spec_witness :
    login ⟨"b@x.com", "pw1"⟩ db0 = ⟨.error ⟨404, "Usuário não encontrado"⟩, db0, true⟩
  ∧ login ⟨"a@x.com", "wrong"⟩ db0 = ⟨.error ⟨401, "Senha incorreta"⟩, db0, true⟩
  ∧ login ⟨"a@x.com", "pw1"⟩ db0 = ⟨.ok ⟨"Bem-vindo " ++ "Ana" ++ "!", 1⟩, db0, true⟩ :=
  ⟨(login_spec db0 ⟨"b@x.com", "pw1"⟩).1 (by decide),
   (login_spec db0 ⟨"a@x.com", "wrong"⟩).2.1 u0 (by decide) (by decide),
   (login_spec db0 ⟨"a@x.com", "pw1"⟩).2.2 u0 (by decide) (by decide)⟩

set_option maxHeartbeats 2000000 in
/-- The dynamically built `UPDATE ... SET` acts on one row exactly as the
sparse field-by-field description: each present field overwrites, each absent
field keeps its prior value, and `id` and `senha` are never assigned (the
loop iterates only the nine `AtualizacaoPerfil` fields). -/
theorem aplicarUpdate_camposPresentes (dados : AtualizacaoPerfil) (u : Usuario) :
    aplicarUpdate (camposPresentes dados) u =
      { id := u.id
        nome := updStr dados.nome u.nome
        telefone := updOpt dados.telefone u.telefone
        email := updStr dados.email u.email
        senha := u.senha
        github := updOpt dados.github u.github
        linkedin := updOpt dados.linkedin u.linkedin
        funcao := updOpt dados.funcao u.funcao
        pais := updOpt dados.pais u.pais
        cidade := updOpt dados.cidade u.cidade
        sobre_mim := updOpt dados.sobre_mim u.sobre_mim } := by
  rcases dados with ⟨n, t, g, l, f, p, c, s, e⟩
  cases n <;> cases t <;> cases g <;> cases l <;> cases f <;> cases p <;>
    cases c <;> cases s <;> cases e <;> rfl

/-- C6: with at least one present field, profile update succeeds and rewrites
exactly the rows whose id matches, setting precisely the present fields;
absent fields, the password hash, the row id, every other user row, and the
whole skill table keep their prior values. -/
theorem atualizar_perfil_parcial (db : DB) (idealizador_id : Nat)
    (dados : AtualizacaoPerfil) (h : camposPresentes dados ≠ []) :
    (atualizar_perfil idealizador_id dados db).result = .ok "Perfil atualizado com sucesso!"
  ∧ (atualizar_perfil idealizador_id dados db).db.usuarios
      = db.usuarios.map (fun u =>
          if u.id == idealizador_id then
            { id := u.id
              nome := updStr dados.nome u.nome
              telefone := updOpt dados.telefone u.telefone
              email := updStr dados.email u.email
              senha := u.senha
              github := updOpt dados.github u.github
              linkedin := updOpt dados.linkedin u.linkedin
              funcao := updOpt dados.funcao u.funcao
              pais := updOpt dados.pais u.pais
              cidade := updOpt dados.cidade u.cidade
              sobre_mim := updOpt dados.sobre_mim u.sobre_mim }
          else u)
  ∧ (atualizar_perfil idealizador_id dados db).db.habilidades = db.habilidades := by
  have hne : (camposPresentes dados).isEmpty = false := by
    cases hcp : camposPresentes dados with
    | nil => exact absurd hcp h
    | cons a l => rfl
  simp [atualizar_perfil, hne, aplicarUpdate_camposPresentes]

/-- Sample sparse update: only `cidade` present (spec 8's frame example). -/
def upd0 : AtualizacaoPerfil := ⟨none, none, none, none, none, none, some "X", none, none⟩

/-- C6 witness: updating `db0`'s user 1 with only `cidade = "X"` succeeds and
yields exactly `u0` with `cidade` replaced — every other field retains its
prior value. -/
theorem atualizar_perfil_parcial_witness :
    (atualizar_perfil 1 upd0 db0).result = .ok "Perfil atualizado com sucesso!"
  ∧ (atualizar_perfil 1 upd0 db0).db.usuarios = [{ u0 with cidade := some "X" }] := by
  refine ⟨(atualizar_perfil_parcial db0 1 upd0 (by decide)).1, ?_⟩
  rw [(atualizar_perfil_parcial db0 1 upd0 (by decide)).2.1]
  rfl

/-- C7: profile read returns 404 (store untouched, connection closed) when
the id has no row; otherwise it returns every column except the password
hash — the `Perfil` payload has no `senha` field — with `""` substituted for
each null column, plus the id's insertion-ordered skill names. -/
theorem obter_perfil_spec (db : DB) (idealizador_id : Nat) :
    (db.usuarios.find? (fun u => u.id == idealizador_id) = none →
      obter_perfil idealizador_id db = ⟨.error ⟨404, "Perfil não encontrado"⟩, db, true⟩)
  ∧ (∀ u, db.usuarios.find? (fun u => u.id == idealizador_id) = some u →
      obter_perfil idealizador_id db
        = ⟨.ok ⟨u.id, u.nome, u.telefone.getD "", u.email, u.github.getD "",
              u.linkedin.getD "", u.funcao.getD "", u.pais.getD "", u.cidade.getD "",
              u.sobre_mim.getD "", skillsOf idealizador_id db⟩, db, true⟩) := by
  refine ⟨fun h => ?_, fun u hu => ?_⟩ <;> simp [obter_perfil, *]

/-- C7 witness: reading `db0`'s user 1 yields the concrete projection — null
columns as `""`, skills `["a", "b"]`, no password anywhere — and reading the
absent id 2 is 404. -/
theorem obter_perfil_spec_witness :
    obter_perfil 1 db0
      = ⟨.ok ⟨1, "Ana", "5599", "a@x.com", "", "", "dev", "BR", "POA", "", ["a", "b"]⟩,
         db0, true⟩
  ∧ obter_perfil 2 db0 = ⟨.error ⟨404, "Perfil não encontrado"⟩, db0, true⟩ := by
  refine ⟨?_, (obter_perfil_spec db0 2).1 (by decide)⟩
  rw [(obter_perfil_spec db0 1).2 u0 (by decide)]
  rfl

/-- C8: profile update with zero present fields returns the bad-request
error and leaves the store exactly as it was — no update statement runs, and
a subsequent profile read observes the prior values.  (The `connClosed =
false` component records that this exit path also skips `conexao.close()`;
see the C9 theorem.) -/
theorem atualizar_perfil_vazio (db : DB) (idealizador_id : Nat)
    (dados : AtualizacaoPerfil) (h : camposPresentes dados = []) :
    atualizar_perfil idealizador_id dados db
      = ⟨.error ⟨400, "Nenhum dado enviado para atualizar."⟩, db, false⟩
  ∧ obter_perfil idealizador_id (atualizar_perfil idealizador_id dados db).db
      = obter_perfil idealizador_id db := by
  have heq : atualizar_perfil idealizador_id dados db
      = ⟨.error ⟨400, "Nenhum dado enviado para atualizar."⟩, db, false⟩ := by
    simp [atualizar_perfil, h]
  exact ⟨heq, by rw [heq]⟩

/-- Sparse update with every field absent. -/
def updVazia : AtualizacaoPerfil := ⟨none, none, none, none, none, none, none, none, none⟩

/-- C8 witness: the all-absent update on `db0` is rejected with 400 and a
subsequent read of user 1 is unchanged. -/
theorem atualizar_perfil_vazio_witness :
    atualizar_perfil 1 updVazia db0
      = ⟨.error ⟨400, "Nenhum dado enviado para atualizar."⟩, db0, false⟩
  ∧ obter_perfil 1 (atualizar_perfil 1 updVazia db0).db = obter_perfil 1 db0 :=
  atualizar_perfil_vazio db0 1 updVazia (by decide)

/-- C9: the claimed guaranteed connection release fails on exactly the two
paths the claim itself names.  The bad-request exit of profile update raises
at src/main.py:161 before `conexao.close()` at line 167, and a failing
`INSERT` in skill replace escapes src/main.py:185-200 (which has no
try/finally) before `conexao.close()` at line 198 — both leave the
connection open.  For contrast, the error paths of the other handlers do
close (registration and delete use `finally`, login and profile read close
before raising). -/
theorem conexao_nao_liberada :
    (atualizar_perfil 1 updVazia db0).connClosed = false
  ∧ (salvar_habilidades 1 ["a"] (some "INSERT falhou") db0).connClosed = false
  ∧ (cadastrar ⟨"Bia", none, "a@x.com", "pw2", none, none, none, none, none, none⟩
       7 db0).connClosed = true
  ∧ (login ⟨"b@x.com", "x"⟩ db0).connClosed = true
  ∧ (obter_perfil 2 db0).connClosed = true
  ∧ (excluir_perfil 1 (some "erro") db0).connClosed = true :=
  ⟨rfl, rfl, rfl, rfl, rfl, rfl⟩

/-- C10: skill replace never checks that the user exists: for an id with no
user row it still succeeds with the confirmation message (never a 404),
creates one skill row per input name for that id, and the users table —
still missing the id — is untouched, so the new skill rows reference a
nonexistent user. -/
theorem salvar_habilidades_sem_verificacao (db : DB) (idealizador_id : Nat)
    (nomes : List String) (h : ∀ u ∈ db.usuarios, u.id ≠ idealizador_id) :
    (salvar_habilidades idealizador_id nomes none db).result
        = .ok "Habilidades atualizadas com sucesso!"
  ∧ skillsOf idealizador_id (salvar_habilidades idealizador_id nomes none db).db = nomes
  ∧ (salvar_habilidades idealizador_id nomes none db).db.usuarios = db.usuarios
  ∧ ∀ u ∈ (salvar_habilidades idealizador_id nomes none db).db.usuarios,
      u.id ≠ idealizador_id := by
  have husers : (salvar_habilidades idealizador_id nomes none db).db.usuarios
      = db.usuarios := by
    simp [salvar_habilidades, inserirHabilidades_usuarios]
  refine ⟨rfl, ?_, husers, ?_⟩
  · simp only [salvar_habilidades]
    rw [skillsOf_inserirHabilidades]
    simp [skillsOf, skillNames_filter_out]
  · rw [husers]; exact h

/-- C10 witness: `db0` has no user 2, yet replacing user 2's skills with
`["c", "c"]` succeeds and stores both rows (duplicates preserved) while the
users table still lacks id 2. -/
theorem salvar_habilidades_sem_verificacao_witness :
    (salvar_habilidades 2 ["c", "c"] none db0).result
        = .ok "Habilidades atualizadas com sucesso!"
  ∧ skillsOf 2 (salvar_habilidades 2 ["c", "c"] none db0).db = ["c", "c"]
  ∧ (salvar_habilidades 2 ["c", "c"] none db0).db.usuarios = db0.usuarios
  ∧ ∀ u ∈ (salvar_habilidades 2 ["c", "c"] none db0).db.usuarios, u.id ≠ 2 :=
  salvar_habilidades_sem_verificacao db0 2 ["c", "c"] (by decide)
